import Mathlib

/-!
# Verification of the school-administration attendance/timetable core

Shallow embedding of the attendance-statistics engine, the attendance
validation engine, the period-statistics engine, the teacher-availability
checker and the proxy-assignment engine of the `schoolcore-backend`
repository (Python/Django), together with proofs of the specification
claims about them.

Conventions used throughout the embedding:

* Calendar dates are represented in two ways, mirroring the source:
  - as a `Date` structure (year/month/day) where the source manipulates
    `datetime.date` objects field-wise (parsing, `replace(month=1, day=1)`),
  - as a *day number* (`Nat`): the proleptic-Gregorian rata-die number of
    the date (0001-01-01 = day 1), where the source only iterates, compares
    or subtracts dates.  `toRdn` converts; it is strictly monotone and
    injective on valid dates, so order/equality tests transfer.
* Python `date.weekday()` (Monday = 0 .. Sunday = 6) becomes
  `pythonWeekday`; day number 1 (0001-01-01) is a Monday.
* Django querysets become explicit lists of row structures; `filter(...)`
  becomes `List.filter`, `.exists()` becomes `List.any`, `.count()`
  becomes `List.length` after a filter.
* Python `while` loops over dates become recursion on the explicit loop
  counter `end + 1 - current` (the exact number of remaining iterations),
  so everything stays kernel-computable.
* Machine integers: all quantities are mathematical integers in Python,
  so `Nat`/`Int` are used directly (counts as `Nat`, values produced with
  `max(0, a - b)` as `Int`, mirroring Python's signed arithmetic).
-/

namespace SchoolCore

/-! ## Day-number arithmetic and day-of-week codes -/

/-- Python's `date.weekday()`: Monday = 0 .. Sunday = 6, expressed on
rata-die day numbers (day 1 = 0001-01-01 is a Monday). -/
def pythonWeekday (d : Nat) : Nat := (d + 6) % 7

/-- The school day-of-week code used throughout the source:
`(date.weekday() + 1) % 7`, i.e. Sunday = 0 .. Saturday = 6. -/
def isoWeekdayCode (d : Nat) : Nat := (pythonWeekday d + 1) % 7

theorem isoWeekdayCode_eq_mod (d : Nat) : isoWeekdayCode d = d % 7 := by
  unfold isoWeekdayCode pythonWeekday
  omega

/-! ## `records/utils.py`: `count_school_days` -/

/-- One iteration of the `while current <= end_date` loop of
`count_school_days`, recursing on the remaining iteration count
`end_date + 1 - current` (`remaining`).  The loop body adds 1 when the
current day is neither a weekend day nor a holiday and then advances
`current` by one day. -/
def csdLoop (weekend_days : List Nat) (holidays : List Nat) :
    Nat → Nat → Nat
  | 0, _ => 0
  | remaining + 1, current =>
      (if ¬ isoWeekdayCode current ∈ weekend_days ∧ ¬ current ∈ holidays
        then 1 else 0)
      + csdLoop weekend_days holidays remaining (current + 1)

/-- `records/utils.py::count_school_days`: counts the days in
`[start_date, end_date]` (inclusive, as day numbers) that are neither on
a weekend-day code of `weekend_days` nor in the holiday set. -/
def count_school_days (start_date end_date : Nat)
    (weekend_days : List Nat) (holidays : List Nat) : Nat :=
  csdLoop weekend_days holidays (end_date + 1 - start_date) start_date

/-- The list of day numbers in `[s, e]` inclusive. -/
def rangeDays (s e : Nat) : List Nat :=
  List.range' s (e + 1 - s)

theorem rangeDays_zero (s e : Nat) (h : e < s) : rangeDays s e = [] := by
  unfold rangeDays
  have : e + 1 - s = 0 := by omega
  simp [this]

theorem rangeDays_succ (s e : Nat) (h : s ≤ e) :
    rangeDays s e = s :: rangeDays (s + 1) e := by
  unfold rangeDays
  have h1 : e + 1 - s = (e + 1 - (s + 1)) + 1 := by omega
  rw [h1, List.range'_succ]

theorem csdLoop_eq_countP (W H : List Nat) :
    ∀ n s, csdLoop W H n s =
      (List.range' s n).countP
        (fun d => decide (¬ isoWeekdayCode d ∈ W ∧ ¬ d ∈ H)) := by
  intro n
  induction n with
  | zero => intro s; simp [csdLoop]
  | succ m ih =>
      intro s
      rw [csdLoop, List.range'_succ, List.countP_cons, ih (s + 1)]
      by_cases hc : ¬ isoWeekdayCode s ∈ W ∧ ¬ s ∈ H <;> simp [hc] <;> omega

theorem count_school_days_eq_countP (s e : Nat) (W H : List Nat) :
    count_school_days s e W H =
      (rangeDays s e).countP
        (fun d => decide (¬ isoWeekdayCode d ∈ W ∧ ¬ d ∈ H)) := by
  unfold count_school_days rangeDays
  exact csdLoop_eq_countP W H (e + 1 - s) s

/-- Per-day case split: each day is counted by exactly one of the three
predicates (school day / weekend day / holiday-not-weekend). -/
theorem countP_three_split (l : List Nat) (W H : List Nat) :
    l.countP (fun d => decide (¬ isoWeekdayCode d ∈ W ∧ ¬ d ∈ H))
      + l.countP (fun d => decide (isoWeekdayCode d ∈ W))
      + l.countP (fun d => decide (d ∈ H ∧ ¬ isoWeekdayCode d ∈ W))
      = l.length := by
  induction l with
  | nil => simp
  | cons a t ih =>
      by_cases hw : isoWeekdayCode a ∈ W <;> by_cases hh : a ∈ H <;>
        simp [List.countP_cons, hw, hh] at ih ⊢ <;> omega

/-! ## Calendar dates -/

/-- A calendar date as manipulated field-wise by the source
(`datetime.date`). -/
structure Date where
  year : Nat
  month : Nat
  day : Nat
deriving DecidableEq, Repr

/-- Gregorian leap-year test. -/
def isLeap (y : Nat) : Bool :=
  (y % 4 == 0 && y % 100 != 0) || y % 400 == 0

/-- Number of days in a month of a given year. -/
def daysInMonth (y m : Nat) : Nat :=
  match m with
  | 2 => if isLeap y then 29 else 28
  | 4 | 6 | 9 | 11 => 30
  | _ => 31

/-- Days of year `y` that precede month `m`. -/
def daysBeforeMonth (y m : Nat) : Nat :=
  (match m with
   | 1 => 0 | 2 => 31 | 3 => 59 | 4 => 90 | 5 => 120 | 6 => 151
   | 7 => 181 | 8 => 212 | 9 => 243 | 10 => 273 | 11 => 304 | _ => 334)
  + (if 3 ≤ m ∧ isLeap y = true then 1 else 0)

/-- Rata-die day number of a date: 0001-01-01 ↦ 1 (a Monday).  Strictly
monotone and injective on valid dates, so `datetime.date` comparison,
equality and day-stepping transfer to `Nat` comparison, equality and
successor on day numbers. -/
def toRdn (dt : Date) : Nat :=
  365 * (dt.year - 1) + (dt.year - 1) / 4 - (dt.year - 1) / 100
    + (dt.year - 1) / 400 + daysBeforeMonth dt.year dt.month + dt.day

/-- Zero-pad to two digits (for `date.isoformat`). -/
def pad2 (n : Nat) : String :=
  if n < 10 then "0" ++ toString n else toString n

/-- Zero-pad to four digits (for `date.isoformat`). -/
def pad4 (n : Nat) : String :=
  if n < 10 then "000" ++ toString n
  else if n < 100 then "00" ++ toString n
  else if n < 1000 then "0" ++ toString n
  else toString n

/-- `date.isoformat()`: `YYYY-MM-DD`. -/
def isoformat (dt : Date) : String :=
  pad4 dt.year ++ "-" ++ pad2 dt.month ++ "-" ++ pad2 dt.day

/-! ## `datetime.strptime(s, '%Y-%m-%d').date()` -/

/-- Split a character list at every `'-'` (like splitting the date string
on the format's literal dashes). -/
def splitDash : List Char → List (List Char)
  | [] => [[]]
  | c :: cs =>
      if c = '-' then [] :: splitDash cs
      else
        match splitDash cs with
        | g :: gs => (c :: g) :: gs
        | [] => [[c]]

/-- Numeric value of a list of decimal digit characters. -/
def digitsToNat (cs : List Char) : Nat :=
  cs.foldl (fun acc c => acc * 10 + (c.toNat - 48)) 0

/-- `datetime.strptime(s, '%Y-%m-%d')`, returning `none` where the source
raises `ValueError`.  Mirrors CPython: `%Y` matches exactly four digits,
`%m`/`%d` match one or two digits, the whole string must be consumed, and
the resulting numbers must form a valid calendar date (year ≥ 1,
month 1–12, day within the month's length). -/
def parse_date (s : String) : Option Date :=
  match splitDash s.data with
  | [ys, ms, ds] =>
      if ys.length == 4 && ys.all Char.isDigit
          && decide (1 ≤ ms.length) && decide (ms.length ≤ 2)
          && ms.all Char.isDigit
          && decide (1 ≤ ds.length) && decide (ds.length ≤ 2)
          && ds.all Char.isDigit then
        let y := digitsToNat ys
        let m := digitsToNat ms
        let d := digitsToNat ds
        if 1 ≤ y ∧ 1 ≤ m ∧ m ≤ 12 ∧ 1 ≤ d ∧ d ≤ daysInMonth y m then
          some ⟨y, m, d⟩
        else none
      else none
  | _ => none

/-! ## `records/utils.py`: `parse_weekend_days`, `is_weekend` -/

/-- Outcome of Python's `json.loads` on a string: a decode error, a JSON
list (of day codes), or some other JSON value.  The JSON grammar itself is
external to the repository, so the decoder's verdict is carried as data. -/
inductive JsonParse where
  | fail : JsonParse
  | list (l : List Nat) : JsonParse
  | nonList : JsonParse
deriving DecidableEq, Repr

/-- The value of a `ClassRoom.weekend_days` JSON field as seen by
`parse_weekend_days`: Python `None`, a string (together with what
`json.loads` would return for it), or an already-decoded list. -/
inductive WeekendData where
  | pynone : WeekendData
  | pystr (s : String) (parsed : JsonParse) : WeekendData
  | pylist (l : List Nat) : WeekendData
deriving DecidableEq, Repr

/-- Python truthiness of a `weekend_days` value (`None`, `""` and `[]`
are falsy). -/
def weekendTruthy : WeekendData → Bool
  | .pynone => false
  | .pystr s _ => !(s == "")
  | .pylist l => !l.isEmpty

/-- `records/utils.py::parse_weekend_days`: falsy input defaults to
`[0, 6]` (Sunday and Saturday); a string is JSON-decoded, with decode
failure defaulting to `[0, 6]`; a non-list result defaults to `[0, 6]`. -/
def parse_weekend_days (weekend_data : WeekendData) : List Nat :=
  if weekendTruthy weekend_data = false then [0, 6]
  else
    match weekend_data with
    | .pynone => [0, 6]
    | .pystr _ parsed =>
        match parsed with
        | .fail => [0, 6]
        | .list l => l
        | .nonList => [0, 6]
    | .pylist l => l

/-- `records/models.py::ClassRoom` (the fields the engines read). -/
structure ClassRoomM where
  id : Nat
  name : String
  school_id : Nat
  academic_year_id : Nat
  start_date : Option Date
  end_date : Option Date
  weekend_days : WeekendData
deriving DecidableEq, Repr

/-- `records/utils.py::is_weekend`: the date's day-of-week code
`(date_obj.weekday() + 1) % 7` is tested for membership in the
classroom's parsed weekend-day list (`None` classroom uses the default). -/
def is_weekend (date_obj : Date) (classroom : Option ClassRoomM) : Bool :=
  let weekend_days := parse_weekend_days
    (match classroom with
     | some c => c.weekend_days
     | none => .pynone)
  decide (isoWeekdayCode (toRdn date_obj) ∈ weekend_days)

/-- `records/models.py::Student` (the fields the engines read;
`classroom` is the `select_related` object, `none` for a null FK). -/
structure StudentM where
  id : Nat
  user_id : Option Nat
  roll_number : Nat
  classroom : Option ClassRoomM
deriving DecidableEq, Repr

/-- `records/models.py::Attendance`: one row per (student, date, year),
with `unique_together ('student', 'date', 'year')`. -/
structure AttendanceRow where
  student_id : Nat
  date : Date
  present : Bool
  year_id : Nat
deriving DecidableEq, Repr

/-! ## `records/services.py`: `AttendanceStatsService.get_classroom_stats` -/

/-- The result dictionary of `get_classroom_stats`.  The
`attendance_percentage` entry is a Python float (`round(x, 2)`) and is
not modelled; no claim concerns it. -/
structure ClassroomStats where
  classroom_id : Nat
  classroom_name : String
  student_count : Nat
  attendance_records : Nat
  present_count : Nat
  expected_records : Nat
  pending_records : Int
  is_completed : Bool
  start_date : String
  end_date : String
deriving DecidableEq, Repr

/-- `Student.objects.filter(classroom=classroom)` (FK comparison by id;
a null FK matches nothing). -/
def students_of_classroom (students : List StudentM)
    (classroom : ClassRoomM) : List StudentM :=
  students.filter (fun s =>
    match s.classroom with
    | some c => c.id == classroom.id
    | none => false)

/-- The effective date range of `get_classroom_stats` (lines 46–52):
`[start_date, min(end_date, today)]` when the classroom has both dates,
else `[Jan 1 of today's year, today]`. -/
def effective_range (classroom : ClassRoomM) (today : Date) : Date × Date :=
  match classroom.start_date, classroom.end_date with
  | some sd, some ed => (sd, if toRdn ed ≤ toRdn today then ed else today)
  | _, _ => (⟨today.year, 1, 1⟩, today)

/-- `records/services.py::AttendanceStatsService.get_classroom_stats`:
`None` when the classroom has no students; otherwise expected school
days × students, actual/present counts over the effective range, pending
`max(0, expected - actual)` and `is_completed = pending <= 0`. -/
def get_classroom_stats (classroom : ClassRoomM) (year_id : Nat)
    (holidays : List Date) (today : Date)
    (students : List StudentM) (attendance : List AttendanceRow) :
    Option ClassroomStats :=
  let student_ids := (students_of_classroom students classroom).map (·.id)
  let student_count := student_ids.length
  if student_count = 0 then none
  else
    let start_date := (effective_range classroom today).1
    let end_date := (effective_range classroom today).2
    let weekend_days := parse_weekend_days classroom.weekend_days
    let expected_days := count_school_days (toRdn start_date) (toRdn end_date)
      weekend_days (holidays.map toRdn)
    let expected_records := expected_days * student_count
    let in_range := fun (r : AttendanceRow) =>
      student_ids.contains r.student_id
        && decide (toRdn start_date ≤ toRdn r.date)
        && decide (toRdn r.date ≤ toRdn end_date)
        && r.year_id == year_id
    let records := attendance.filter in_range
    let present_count := (records.filter (·.present)).length
    let total_attendance := records.length
    let pending_records : Int :=
      max 0 ((expected_records : Int) - (total_attendance : Int))
    let is_completed := decide (pending_records ≤ 0)
    some {
      classroom_id := classroom.id
      classroom_name := classroom.name
      student_count := student_count
      attendance_records := total_attendance
      present_count := present_count
      expected_records := expected_records
      pending_records := pending_records
      is_completed := is_completed
      start_date := isoformat start_date
      end_date := isoformat end_date }

/-! ## `records/attendance_handler.py`: `AttendanceHandler` -/

/-- A submitted attendance record as read by `record.get('student_id')`,
`record.get('date')`, `record.get('present')` (absent keys are `none`). -/
structure RawRecord where
  student_id : Option Nat
  date : Option String
  present : Option Bool
deriving DecidableEq, Repr

/-- Python truthiness of the `student_id` field (`None` and `0` falsy). -/
def truthyId : Option Nat → Bool
  | none => false
  | some n => !(n == 0)

/-- Python truthiness of the `date` field (`None` and `""` falsy). -/
def truthyDate : Option String → Bool
  | none => false
  | some s => !(s == "")

/-- `valid_students[student_id]` dictionary lookup (the dict maps
`s.id ↦ s` over the fetched students). -/
def findStudent (valid_students : List StudentM) (sid : Nat) :
    Option StudentM :=
  valid_students.find? (fun s => s.id == sid)

/-- `Student.objects.filter(id__in=student_ids, classroom__school=school)`
where `student_ids = [r.get('student_id') for r in records]` (built
identically in `AttendanceHandler.validate_and_prepare_records` and
`AttendanceValidationService.validate_attendance_records`). -/
def build_valid_students (records : List RawRecord) (school_id : Nat)
    (students : List StudentM) : List StudentM :=
  students.filter (fun s =>
    (records.map RawRecord.student_id).contains (some s.id)
      && (match s.classroom with
          | some c => c.school_id == school_id
          | none => false))

/-- `AttendanceHandler._validate_single_record` (lines 64–104): the six
checks in source order, each returning its index-tagged message; `today`
is the injected clock (`datetime.now().date()`). -/
def validate_single_record (idx : Nat) (record : RawRecord)
    (valid_students : List StudentM) (holidays : List Date)
    (today : Date) : Option String :=
  let sid := record.student_id.getD 0
  let date_str := record.date.getD ""
  if !truthyId record.student_id || !truthyDate record.date then
    some s!"Record {idx}: Missing student_id or date"
  else
    match findStudent valid_students sid with
    | none => some s!"Record {idx}: Invalid student_id {sid}"
    | some student =>
        match parse_date date_str with
        | none => some s!"Record {idx}: Invalid date format {date_str}"
        | some date_obj =>
            if toRdn today < toRdn date_obj then
              let todayStr := isoformat today
              some s!"Record {idx}: Cannot mark attendance for future date ({date_str}). Today is {todayStr}"
            else if is_weekend date_obj student.classroom then
              some s!"Record {idx}: Cannot mark on weekend ({date_str})"
            else if decide (date_obj ∈ holidays) then
              some s!"Record {idx}: Cannot mark on holiday ({date_str})"
            else none

/-- `AttendanceHandler._create_attendance_object` (lines 106–127): `none`
when `present` is null, else the pending `Attendance` write object.  The
source re-parses the date with `strptime` and would raise on a malformed
string; the function is only invoked after validation passed, where the
parse succeeds, so the `none` parse branch is unreachable in context. -/
def create_attendance_object (record : RawRecord) (year_id : Nat) :
    Option AttendanceRow :=
  match record.present with
  | none => none
  | some present =>
      match parse_date (record.date.getD "") with
      | some date_obj =>
          some ⟨record.student_id.getD 0, date_obj, present, year_id⟩
      | none => none

/-- The `for idx, record in enumerate(records)` loop of
`AttendanceHandler.validate_and_prepare_records` (lines 48–60),
accumulating valid objects and error messages in order. -/
def validateLoop (valid_students : List StudentM) (holidays : List Date)
    (today : Date) (year_id : Nat) :
    Nat → List RawRecord → List AttendanceRow × List String
  | _, [] => ([], [])
  | idx, record :: rest =>
      let done := validateLoop valid_students holidays today year_id
        (idx + 1) rest
      match validate_single_record idx record valid_students holidays today with
      | some e => (done.1, e :: done.2)
      | none =>
          match create_attendance_object record year_id with
          | some a => (a :: done.1, done.2)
          | none => done

/-- `AttendanceHandler.validate_and_prepare_records` (lines 17–62). -/
def validate_and_prepare_records (records : List RawRecord) (year_id : Nat)
    (school_id : Nat) (holidays : List Date) (today : Date)
    (students : List StudentM) : List AttendanceRow × List String :=
  validateLoop (build_valid_students records school_id students) holidays
    today year_id 0 records

/-! ## `records/services.py`: `AttendanceValidationService` -/

/-- The record loop of
`AttendanceValidationService.validate_attendance_records` (lines
235–277): same checks as the handler but with *no* future-date check, and
the `present is None` skip placed after the holiday check. -/
def serviceLoop (valid_students : List StudentM) (holidays : List Date)
    (year_id : Nat) :
    Nat → List RawRecord → List AttendanceRow × List String
  | _, [] => ([], [])
  | idx, record :: rest =>
      let done := serviceLoop valid_students holidays year_id (idx + 1) rest
      let sid := record.student_id.getD 0
      let date_str := record.date.getD ""
      if !truthyId record.student_id || !truthyDate record.date then
        (done.1, s!"Record {idx}: Missing student_id or date" :: done.2)
      else
        match findStudent valid_students sid with
        | none => (done.1, s!"Record {idx}: Invalid student_id {sid}" :: done.2)
        | some student =>
            match parse_date date_str with
            | none =>
                (done.1, s!"Record {idx}: Invalid date format {date_str}" :: done.2)
            | some date_obj =>
                if is_weekend date_obj student.classroom then
                  (done.1, s!"Record {idx}: Cannot mark on weekend ({date_str})" :: done.2)
                else if decide (date_obj ∈ holidays) then
                  (done.1, s!"Record {idx}: Cannot mark on holiday ({date_str})" :: done.2)
                else
                  match record.present with
                  | none => done
                  | some present =>
                      (⟨sid, date_obj, present, year_id⟩ :: done.1, done.2)

/-- `AttendanceValidationService.validate_attendance_records`
(lines 199–279). -/
def validate_attendance_records (records : List RawRecord) (year_id : Nat)
    (school_id : Nat) (holidays : List Date) (students : List StudentM) :
    List AttendanceRow × List String :=
  if records.isEmpty then ([], ["No attendance records provided"])
  else
    serviceLoop (build_valid_students records school_id students) holidays
      year_id 0 records

/-! ## The six failure conditions of `_validate_single_record`,
as standalone predicates (for stating the check-order claim) -/

/-- Failure 1: `student_id` or `date` missing (falsy). -/
def cond_missing (record : RawRecord) : Bool :=
  !truthyId record.student_id || !truthyDate record.date

/-- Failure 2: `student_id` does not resolve to a student of the school. -/
def cond_unknown_student (record : RawRecord)
    (valid_students : List StudentM) : Bool :=
  (findStudent valid_students (record.student_id.getD 0)).isNone

/-- Failure 3: the date string fails `YYYY-MM-DD` parsing. -/
def cond_bad_format (record : RawRecord) : Bool :=
  (parse_date (record.date.getD "")).isNone

/-- Failure 4: the date is strictly after today. -/
def cond_future (record : RawRecord) (today : Date) : Bool :=
  match parse_date (record.date.getD "") with
  | some d => decide (toRdn today < toRdn d)
  | none => false

/-- Failure 5: the date falls on the resolved student's classroom's
weekend. -/
def cond_weekend (record : RawRecord)
    (valid_students : List StudentM) : Bool :=
  match findStudent valid_students (record.student_id.getD 0),
        parse_date (record.date.getD "") with
  | some student, some d => is_weekend d student.classroom
  | _, _ => false

/-- Failure 6: the date is in the holiday set. -/
def cond_holiday (record : RawRecord) (holidays : List Date) : Bool :=
  match parse_date (record.date.getD "") with
  | some d => decide (d ∈ holidays)
  | none => false

/-! ## `AttendanceHandler.bulk_create_records` (lines 129–186) -/

/-- The natural key of the `unique_together ('student', 'date', 'year')`
constraint on `Attendance`. -/
def sameKey (a b : AttendanceRow) : Bool :=
  a.student_id == b.student_id && decide (a.date = b.date)
    && a.year_id == b.year_id

/-- One conflict-handled insert of
`Attendance.objects.bulk_create(attendance_objects,
update_conflicts=True, update_fields=['present'],
unique_fields=['student', 'date', 'year'])`: a stored row with the same
(student, date, year) key gets only its `present` column updated
(`update_fields=['present']`), otherwise the object is inserted as a new
row. -/
def upsert_one (db : List AttendanceRow) (o : AttendanceRow) :
    List AttendanceRow :=
  if db.any (fun r => sameKey r o) then
    db.map (fun r => if sameKey r o then { r with present := o.present } else r)
  else db ++ [o]

/-- `AttendanceHandler.bulk_create_records`: the whole batch is written
through the conflict-handling bulk insert. -/
def bulk_create_records (attendance_objects : List AttendanceRow)
    (db : List AttendanceRow) : List AttendanceRow :=
  attendance_objects.foldl upsert_one db

/-! ## `timetable/models.py` rows -/

/-- `Proxy.STATUS_CHOICES`; the model field's default is `'assigned'`. -/
inductive ProxyStatus where
  | assigned : ProxyStatus
  | completed : ProxyStatus
  | cancelled : ProxyStatus
deriving DecidableEq, Repr

/-- The `status` default of `Proxy.status`
(`models.CharField(..., default='assigned')`). -/
def proxy_status_default : ProxyStatus := ProxyStatus.assigned

/-- `timetable/models.py::TeacherAttendance`/`Absence` row (dates as day
numbers). -/
structure AbsenceRowM where
  id : Nat
  teacher_id : Nat
  date : Nat
  status : String
deriving DecidableEq, Repr

/-- `timetable/models.py::TimetableEntry` row (`teacher` FK nullable). -/
structure TimetableEntryM where
  classroom_id : Nat
  day : String
  period : Nat
  subject : String
  teacher_id : Option Nat
deriving DecidableEq, Repr

/-- `timetable/models.py::Proxy` row (dates as day numbers;
`completed_at`/timestamps not modelled). -/
structure ProxyRowM where
  id : Nat
  absence_id : Nat
  classroom_id : Nat
  day : String
  period : Nat
  original_teacher_id : Nat
  proxy_teacher_id : Nat
  subject : String
  date : Nat
  status : ProxyStatus
  assigned_by : Option Nat
deriving DecidableEq, Repr

/-! ## `timetable/timetable_services.py`: `TeacherAvailabilityService` -/

/-- The result dictionary of `get_teacher_availability_for_period`. -/
structure AvailabilityResult where
  available : Bool
  reason : Option String
  has_class : Bool
  has_proxy : Bool
  is_absent : Bool
deriving DecidableEq, Repr

/-- `TeacherAvailabilityService.get_teacher_availability_for_period`
(lines 21–95): absence, then scheduled class, then existing proxy, each
check returning immediately on a match. -/
def get_teacher_availability_for_period (teacher_id : Nat) (date : Nat)
    (day : String) (period : Nat) (absences : List AbsenceRowM)
    (entries : List TimetableEntryM) (proxies : List ProxyRowM) :
    AvailabilityResult :=
  let is_absent := absences.any (fun a =>
    a.teacher_id == teacher_id && a.date == date && a.status == "absent")
  if is_absent then
    { available := false, reason := some "Teacher is absent on this date",
      has_class := false, has_proxy := false, is_absent := true }
  else
    let has_class := entries.any (fun e =>
      e.teacher_id == some teacher_id && e.day == day && e.period == period)
    if has_class then
      { available := false,
        reason := some "Teacher has a scheduled class at this period",
        has_class := true, has_proxy := false, is_absent := false }
    else
      let has_proxy := proxies.any (fun p =>
        p.proxy_teacher_id == teacher_id && p.date == date && p.day == day
          && p.period == period
          && (decide (p.status = ProxyStatus.assigned)
              || decide (p.status = ProxyStatus.completed)))
      if has_proxy then
        { available := false,
          reason := some "Teacher already has a proxy assigned at this period",
          has_class := false, has_proxy := true, is_absent := false }
      else
        { available := true, reason := none, has_class := false,
          has_proxy := false, is_absent := false }

/-- The `reason_type` computed for unavailable teachers in
`get_available_teachers_for_period` (lines 146–148):
`'class' if has_class else 'proxy' if has_proxy else 'absent'`. -/
def reason_type (availability : AvailabilityResult) : String :=
  if availability.has_class then "class"
  else if availability.has_proxy then "proxy"
  else "absent"

/-! ## `timetable/timetable_services.py`: `ProxyAssignmentService`
and `timetable/views.py::CompleteProxyView` -/

/-- `date.strftime('%A').lower()` on a day number. -/
def dayNameOf (d : Nat) : String :=
  match d % 7 with
  | 1 => "monday" | 2 => "tuesday" | 3 => "wednesday" | 4 => "thursday"
  | 5 => "friday" | 6 => "saturday" | _ => "sunday"

/-- `ProxyAssignmentService.assign_proxy` (lines 283–323):
`Proxy.objects.update_or_create` keyed by (absence, classroom, day,
period) with `day` derived from the absence date; the defaults refresh
the teachers, subject, date, `assigned_by`, and set status `assigned`.
A created row gets a fresh id (modelled as max-id + 1). -/
def assign_proxy (absence : AbsenceRowM) (period : Nat)
    (classroom_id : Nat) (proxy_teacher_id : Nat)
    (assigned_by : Option Nat) (subject : String)
    (db : List ProxyRowM) : ProxyRowM × List ProxyRowM :=
  let day := dayNameOf absence.date
  match db.find? (fun p =>
      p.absence_id == absence.id && p.classroom_id == classroom_id
        && p.day == day && p.period == period) with
  | some p0 =>
      let p1 := { p0 with
        original_teacher_id := absence.teacher_id
        proxy_teacher_id := proxy_teacher_id
        subject := subject
        date := absence.date
        status := ProxyStatus.assigned
        assigned_by := assigned_by }
      (p1, db.map (fun p => if p.id == p0.id then p1 else p))
  | none =>
      let p1 : ProxyRowM :=
        { id := (db.map ProxyRowM.id).foldl max 0 + 1
          absence_id := absence.id
          classroom_id := classroom_id
          day := day
          period := period
          original_teacher_id := absence.teacher_id
          proxy_teacher_id := proxy_teacher_id
          subject := subject
          date := absence.date
          status := ProxyStatus.assigned
          assigned_by := assigned_by }
      (p1, db ++ [p1])

/-- `ProxyAssignmentService.cancel_proxy` (lines 387–396): fetch by id,
set status `cancelled` (unconditionally), `false` when the id does not
exist. -/
def cancel_proxy (proxy_id : Nat) (db : List ProxyRowM) :
    Bool × List ProxyRowM :=
  match db.find? (fun p => p.id == proxy_id) with
  | some _ =>
      (true, db.map (fun p =>
        if p.id == proxy_id then { p with status := ProxyStatus.cancelled }
        else p))
  | none => (false, db)

/-- `timetable/views.py::CompleteProxyView.post` (lines 392–414): fetch
the proxy by id scoped to the caller's school, 404 (`none`) when absent,
else set status `completed` (unconditionally). -/
def complete_proxy (proxy_id : Nat) (school_id : Nat)
    (classrooms : List ClassRoomM) (db : List ProxyRowM) :
    Option (List ProxyRowM) :=
  match db.find? (fun p =>
      p.id == proxy_id
        && classrooms.any (fun c =>
             c.id == p.classroom_id && c.school_id == school_id)) with
  | some _ =>
      some (db.map (fun p =>
        if p.id == proxy_id then { p with status := ProxyStatus.completed }
        else p))
  | none => none

/-! ## `records/statistics_handler.py`:
`StatisticsHandler.compute_weekly_statistics` -/

/-- One entry of the weekly statistics list.  The formatted `week` label
(`"Week n: a to b"`) is presentational; only its week number is kept. -/
structure WeekStat where
  week : Nat
  present : Nat
  total : Nat
  pending : Int
deriving DecidableEq, Repr

/-- The `while current <= end_date` loop of `compute_weekly_statistics`
(lines 60–77), recursing on fuel `end_date + 1 - start_date`: every
iteration advances `current` by at least one day, so the fuel bounds the
iteration count (`weekly_eq_windows` below confirms no truncation
occurs). -/
def weeklyLoop (student_ids : List Nat) (student_count : Nat)
    (end_date : Nat) (att : List AttendanceRow) :
    Nat → Nat → Nat → List WeekStat
  | 0, _, _ => []
  | fuel + 1, current, week_num =>
      if current ≤ end_date then
        let week_end := min (current + 6) end_date
        let inWindow := fun (r : AttendanceRow) =>
          decide (r.student_id ∈ student_ids)
            && decide (current ≤ toRdn r.date)
            && decide (toRdn r.date ≤ week_end)
        let total := (att.filter inWindow).length
        let present := (att.filter (fun r => inWindow r && r.present)).length
        { week := week_num, present := present, total := total,
          pending := max 0 ((student_count : Int)
            * ((week_end : Int) - (current : Int)) - (total : Int)) }
          :: weeklyLoop student_ids student_count end_date att fuel
              (week_end + 1) (week_num + 1)
      else []

/-- `StatisticsHandler.compute_weekly_statistics` (lines 47–79).  Note
the `pending` estimate multiplies by `(week_end - current).days`, the
day *difference* across the window. -/
def compute_weekly_statistics (student_ids : List Nat)
    (student_count : Nat) (start_date end_date : Nat)
    (att : List AttendanceRow) : List WeekStat :=
  weeklyLoop student_ids student_count end_date att
    (end_date + 1 - start_date) start_date 1

/-- The window decomposition described by the spec: consecutive 7-day
windows starting at the range start, the last truncated at the range
end. -/
def weeklyWindows (s e : Nat) : List (Nat × Nat) :=
  if h : s ≤ e then
    (s, min (s + 6) e) :: weeklyWindows (min (s + 6) e + 1) e
  else []
termination_by e + 1 - s
decreasing_by simp_wf; omega

/-- The statistics entry reported for one window `w = (first, last)`:
present/total over the window's days and
`pending = max(0, student_count * (last - first) - total)`. -/
def windowStats (student_ids : List Nat) (student_count : Nat)
    (att : List AttendanceRow) (w : Nat × Nat) (week_num : Nat) : WeekStat :=
  let inWindow := fun (r : AttendanceRow) =>
    decide (r.student_id ∈ student_ids)
      && decide (w.1 ≤ toRdn r.date) && decide (toRdn r.date ≤ w.2)
  let total := (att.filter inWindow).length
  { week := week_num
    present := (att.filter (fun r => inWindow r && r.present)).length
    total := total
    pending := max 0 ((student_count : Int)
      * ((w.2 : Int) - (w.1 : Int)) - (total : Int)) }

/-- `windowStats` over a list of windows with consecutive week numbers. -/
def windowStatsFrom (student_ids : List Nat) (student_count : Nat)
    (att : List AttendanceRow) :
    List (Nat × Nat) → Nat → List WeekStat
  | [], _ => []
  | w :: ws, n =>
      windowStats student_ids student_count att w n
        :: windowStatsFrom student_ids student_count att ws (n + 1)

/-! ## The six error messages of `_validate_single_record`, as
standalone builders (for stating the check-order claim) -/

/-- Message for failure 1 (missing fields). -/
def missing_msg (idx : Nat) : String :=
  s!"Record {idx}: Missing student_id or date"

/-- Message for failure 2 (unknown student). -/
def invalid_student_msg (idx sid : Nat) : String :=
  s!"Record {idx}: Invalid student_id {sid}"

/-- Message for failure 3 (malformed date). -/
def bad_format_msg (idx : Nat) (date_str : String) : String :=
  s!"Record {idx}: Invalid date format {date_str}"

/-- Message for failure 4 (future date). -/
def future_msg (idx : Nat) (date_str : String) (today : Date) : String :=
  let todayStr := isoformat today
  s!"Record {idx}: Cannot mark attendance for future date ({date_str}). Today is {todayStr}"

/-- Message for failure 5 (weekend date). -/
def weekend_msg (idx : Nat) (date_str : String) : String :=
  s!"Record {idx}: Cannot mark on weekend ({date_str})"

/-- Message for failure 6 (holiday date). -/
def holiday_msg (idx : Nat) (date_str : String) : String :=
  s!"Record {idx}: Cannot mark on holiday ({date_str})"

/-! ## Concrete instances used to instantiate the theorems -/

/-- A classroom running 2024-01-01 … 2024-01-10 with the default
weekend. -/
def c2Classroom : ClassRoomM :=
  ⟨1, "Class A", 1, 1, some ⟨2024, 1, 1⟩, some ⟨2024, 1, 10⟩,
    WeekendData.pylist [0, 6]⟩

/-- Two students enrolled in `c2Classroom`. -/
def c2Students : List StudentM :=
  [⟨1, some 10, 1, some c2Classroom⟩, ⟨2, some 11, 2, some c2Classroom⟩]

/-- One attendance row inside the effective range. -/
def c2Attendance : List AttendanceRow := [⟨1, ⟨2024, 1, 2⟩, true, 1⟩]

/-- One non-weekend holiday inside the range (2024-01-08 is a Monday). -/
def c2Holidays : List Date := [⟨2024, 1, 8⟩]

/-- The statistics `get_classroom_stats` actually returns on the above:
10 range days − 2 weekend days − 1 holiday = 7 school days, × 2 students
= 14 expected, 1 marked. -/
def c2Stats : ClassroomStats :=
  ⟨1, "Class A", 2, 1, 1, 14, 13, false, "2024-01-01", "2024-01-10"⟩

/-- A classroom with no explicit dates and the default weekend. -/
def c4Classroom : ClassRoomM :=
  ⟨2, "Class B", 1, 1, none, none, WeekendData.pylist [0, 6]⟩

/-- A student of `c4Classroom`. -/
def c4Student : StudentM := ⟨1, some 1, 1, some c4Classroom⟩

/-- A classroom whose `weekend_days` is a string that fails JSON
decoding. -/
def c9Classroom : ClassRoomM :=
  ⟨3, "Class C", 1, 1, none, none,
    WeekendData.pystr "not-json" JsonParse.fail⟩

/-- A classroom for the duplicate-validation-service scenario. -/
def c10Classroom : ClassRoomM :=
  ⟨1, "C", 1, 1, none, none, WeekendData.pylist [0, 6]⟩

/-- A student of `c10Classroom` in school 1. -/
def c10Student : StudentM := ⟨1, some 1, 1, some c10Classroom⟩

/-! # Theorems for the specification claims -/

/-- **C1** (`count_school_days`, `records/utils.py` lines 158–188): for
`start ≤ end`, the function returns the number of days in the inclusive
range minus the number of days whose day-of-week code
`(weekday + 1) % 7` lies in the weekend set, minus the number of holiday
dates in the range that are not also weekend days — so a date that is
both weekend and holiday is excluded exactly once. -/
theorem count_school_days_inclusion_exclusion
    (s e : Nat) (W H : List Nat) (h : s ≤ e) :
    count_school_days s e W H =
      (e + 1 - s)
        - ((rangeDays s e).filter
            (fun d => decide (isoWeekdayCode d ∈ W))).length
        - ((rangeDays s e).filter
            (fun d => decide (d ∈ H ∧ ¬ isoWeekdayCode d ∈ W))).length := by
  have hsplit := countP_three_split (rangeDays s e) W H
  have hlen : (rangeDays s e).length = e + 1 - s := by
    simp [rangeDays]
  rw [count_school_days_eq_countP] at *
  rw [List.countP_eq_length_filter, List.countP_eq_length_filter,
    List.countP_eq_length_filter] at hsplit
  rw [List.countP_eq_length_filter]
  omega

/-- Witness for `count_school_days_inclusion_exclusion`: days 1–14
(two full weeks starting on a Monday), weekend `{0, 6}`, one non-weekend
holiday (day 3) — 14 − 4 − 1 = 9 school days. -/
theorem count_school_days_inclusion_exclusion_witness :
    1 ≤ 14
    ∧ count_school_days 1 14 [0, 6] [3] =
        (14 + 1 - 1)
          - ((rangeDays 1 14).filter
              (fun d => decide (isoWeekdayCode d ∈ [0, 6]))).length
          - ((rangeDays 1 14).filter
              (fun d => decide (d ∈ [3] ∧ ¬ isoWeekdayCode d ∈ [0, 6]))).length
    ∧ count_school_days 1 14 [0, 6] [3] = 9 :=
  ⟨by decide,
   count_school_days_inclusion_exclusion 1 14 [0, 6] [3] (by decide),
   by decide⟩

/-- **C2** (`AttendanceStatsService.get_classroom_stats`,
`records/services.py` lines 17–92): the result is `none` exactly when
the classroom has zero enrolled students; otherwise
`expected_records = count_school_days(effective range, weekend set,
holidays) * student_count`,
`pending_records = max(0, expected_records - attendance_records)` and
`is_completed` holds iff `pending_records = 0`. -/
theorem get_classroom_stats_spec (classroom : ClassRoomM) (year_id : Nat)
    (holidays : List Date) (today : Date) (students : List StudentM)
    (attendance : List AttendanceRow) :
    (get_classroom_stats classroom year_id holidays today students attendance
        = none ↔ (students_of_classroom students classroom).length = 0)
    ∧ ∀ st,
        get_classroom_stats classroom year_id holidays today students
          attendance = some st →
        st.student_count = (students_of_classroom students classroom).length
        ∧ st.expected_records =
            count_school_days (toRdn (effective_range classroom today).1)
              (toRdn (effective_range classroom today).2)
              (parse_weekend_days classroom.weekend_days)
              (holidays.map toRdn) * st.student_count
        ∧ st.pending_records =
            max 0 ((st.expected_records : Int) - (st.attendance_records : Int))
        ∧ (st.is_completed = true ↔ st.pending_records = 0) := by
  have hm := List.length_map (students_of_classroom students classroom)
    StudentM.id
  constructor
  · by_cases hc : (students_of_classroom students classroom).length = 0 <;>
      simp [get_classroom_stats, hm, hc]
  · intro st hst
    by_cases hc : (students_of_classroom students classroom).length = 0
    · simp [get_classroom_stats, hm, hc] at hst
    · simp [get_classroom_stats, hm, hc] at hst
      subst hst
      refine ⟨by simp [hm], by simp [hm], rfl, ?_⟩
      simp only [decide_eq_true_eq]
      omega

/-- Witness for `get_classroom_stats_spec` at the concrete classroom
`c2Classroom` (stats `c2Stats`). -/
theorem get_classroom_stats_spec_witness :
    c2Stats.student_count = (students_of_classroom c2Students c2Classroom).length
    ∧ c2Stats.expected_records =
        count_school_days (toRdn (effective_range c2Classroom ⟨2024, 1, 15⟩).1)
          (toRdn (effective_range c2Classroom ⟨2024, 1, 15⟩).2)
          (parse_weekend_days c2Classroom.weekend_days)
          (c2Holidays.map toRdn) * c2Stats.student_count
    ∧ c2Stats.pending_records =
        max 0 ((c2Stats.expected_records : Int) - (c2Stats.attendance_records : Int))
    ∧ (c2Stats.is_completed = true ↔ c2Stats.pending_records = 0) :=
  (get_classroom_stats_spec c2Classroom 1 c2Holidays ⟨2024, 1, 15⟩
    c2Students c2Attendance).2 c2Stats (by decide)

/-- Every object produced by the validation loop stems from a record of
the batch that passed `_validate_single_record` (at its index) and had a
non-null `present`. -/
theorem validateLoop_mem_objects (valid_students : List StudentM)
    (holidays : List Date) (today : Date) (year_id : Nat) :
    ∀ (records : List RawRecord) (idx : Nat) (a : AttendanceRow),
      a ∈ (validateLoop valid_students holidays today year_id idx records).1 →
      ∃ n r, records.get? n = some r
        ∧ validate_single_record (idx + n) r valid_students holidays today
            = none
        ∧ create_attendance_object r year_id = some a := by
  intro records
  induction records with
  | nil => intro idx a ha; simp [validateLoop] at ha
  | cons rec rest ih =>
      intro idx a ha
      simp only [validateLoop] at ha
      cases hv : validate_single_record idx rec valid_students holidays today with
      | some e =>
          rw [hv] at ha
          simp only at ha
          obtain ⟨n, r, h1, h2, h3⟩ := ih (idx + 1) a ha
          refine ⟨n + 1, r, by simpa using h1, ?_, h3⟩
          rw [show idx + (n + 1) = (idx + 1) + n by omega]
          exact h2
      | none =>
          rw [hv] at ha
          cases hc : create_attendance_object rec year_id with
          | some b =>
              rw [hc] at ha
              simp only [List.mem_cons] at ha
              rcases ha with rfl | ha
              · exact ⟨0, rec, rfl, by simpa using hv, hc⟩
              · obtain ⟨n, r, h1, h2, h3⟩ := ih (idx + 1) a ha
                refine ⟨n + 1, r, by simpa using h1, ?_, h3⟩
                rw [show idx + (n + 1) = (idx + 1) + n by omega]
                exact h2
          | none =>
              rw [hc] at ha
              obtain ⟨n, r, h1, h2, h3⟩ := ih (idx + 1) a ha
              refine ⟨n + 1, r, by simpa using h1, ?_, h3⟩
              rw [show idx + (n + 1) = (idx + 1) + n by omega]
              exact h2

/-- **C3** (`AttendanceHandler._validate_single_record`, lines 64–104,
and `validate_and_prepare_records`, lines 17–62): the six failure
conditions are checked in the fixed order missing-fields, unknown
student, malformed date, future date, weekend, holiday; the first
failing condition determines the index-tagged error message; a record
failing no condition yields no error; and every returned valid object
stems from a record that passed all checks. -/
theorem validate_single_record_order (idx : Nat) (record : RawRecord)
    (valid_students : List StudentM) (holidays : List Date) (today : Date) :
    (cond_missing record = true →
      validate_single_record idx record valid_students holidays today
        = some (missing_msg idx))
    ∧ (cond_missing record = false →
       cond_unknown_student record valid_students = true →
      validate_single_record idx record valid_students holidays today
        = some (invalid_student_msg idx (record.student_id.getD 0)))
    ∧ (cond_missing record = false →
       cond_unknown_student record valid_students = false →
       cond_bad_format record = true →
      validate_single_record idx record valid_students holidays today
        = some (bad_format_msg idx (record.date.getD "")))
    ∧ (cond_missing record = false →
       cond_unknown_student record valid_students = false →
       cond_bad_format record = false →
       cond_future record today = true →
      validate_single_record idx record valid_students holidays today
        = some (future_msg idx (record.date.getD "") today))
    ∧ (cond_missing record = false →
       cond_unknown_student record valid_students = false →
       cond_bad_format record = false →
       cond_future record today = false →
       cond_weekend record valid_students = true →
      validate_single_record idx record valid_students holidays today
        = some (weekend_msg idx (record.date.getD "")))
    ∧ (cond_missing record = false →
       cond_unknown_student record valid_students = false →
       cond_bad_format record = false →
       cond_future record today = false →
       cond_weekend record valid_students = false →
       cond_holiday record holidays = true →
      validate_single_record idx record valid_students holidays today
        = some (holiday_msg idx (record.date.getD "")))
    ∧ (cond_missing record = false →
       cond_unknown_student record valid_students = false →
       cond_bad_format record = false →
       cond_future record today = false →
       cond_weekend record valid_students = false →
       cond_holiday record holidays = false →
      validate_single_record idx record valid_students holidays today = none)
    ∧ (∀ (records : List RawRecord) (year_id school_id : Nat)
          (students : List StudentM) (a : AttendanceRow),
        a ∈ (validate_and_prepare_records records year_id school_id holidays
              today students).1 →
        ∃ n r, records.get? n = some r
          ∧ validate_single_record n r
              (build_valid_students records school_id students) holidays today
              = none
          ∧ create_attendance_object r year_id = some a) := by
  simp only [cond_missing, cond_unknown_student, cond_bad_format,
    cond_future, cond_weekend, cond_holiday]
  refine ⟨?_, ?_, ?_, ?_, ?_, ?_, ?_, ?_⟩
  · intro h0
    simp [validate_single_record, h0, missing_msg]
  · intro h0 h1
    rw [Option.isNone_iff_eq_none] at h1
    simp [validate_single_record, h0, h1, invalid_student_msg]
  · intro h0 h1 h2
    cases hfind : findStudent valid_students (record.student_id.getD 0) with
    | none => rw [hfind] at h1; simp at h1
    | some student =>
        rw [Option.isNone_iff_eq_none] at h2
        simp [validate_single_record, h0, hfind, h2, bad_format_msg]
  · intro h0 h1 h2 h3
    cases hfind : findStudent valid_students (record.student_id.getD 0) with
    | none => rw [hfind] at h1; simp at h1
    | some student =>
        cases hparse : parse_date (record.date.getD "") with
        | none => rw [hparse] at h2; simp at h2
        | some d =>
            rw [hparse] at h3
            simp only [decide_eq_true_eq] at h3
            simp [validate_single_record, h0, hfind, hparse, h3, future_msg]
  · intro h0 h1 h2 h3 h4
    cases hfind : findStudent valid_students (record.student_id.getD 0) with
    | none => rw [hfind] at h1; simp at h1
    | some student =>
        cases hparse : parse_date (record.date.getD "") with
        | none => rw [hparse] at h2; simp at h2
        | some d =>
            rw [hparse] at h3
            simp only [hfind, hparse] at h4
            simp only [decide_eq_false_iff_not] at h3
            simp [validate_single_record, h0, hfind, hparse, h3, h4,
              weekend_msg]
  · intro h0 h1 h2 h3 h4 h5
    cases hfind : findStudent valid_students (record.student_id.getD 0) with
    | none => rw [hfind] at h1; simp at h1
    | some student =>
        cases hparse : parse_date (record.date.getD "") with
        | none => rw [hparse] at h2; simp at h2
        | some d =>
            rw [hparse] at h3
            simp only [hfind, hparse] at h4
            rw [hparse] at h5
            simp only [decide_eq_false_iff_not] at h3
            simp only [decide_eq_true_eq] at h5
            simp [validate_single_record, h0, hfind, hparse, h3, h4, h5,
              holiday_msg]
  · intro h0 h1 h2 h3 h4 h5
    cases hfind : findStudent valid_students (record.student_id.getD 0) with
    | none => rw [hfind] at h1; simp at h1
    | some student =>
        cases hparse : parse_date (record.date.getD "") with
        | none => rw [hparse] at h2; simp at h2
        | some d =>
            rw [hparse] at h3
            simp only [hfind, hparse] at h4
            rw [hparse] at h5
            simp only [decide_eq_false_iff_not] at h3 h5
            simp [validate_single_record, h0, hfind, hparse, h3, h4, h5]
  · intro records year_id school_id students a ha
    unfold validate_and_prepare_records at ha
    obtain ⟨n, r, h1, h2, h3⟩ :=
      validateLoop_mem_objects
        (build_valid_students records school_id students) holidays today
        year_id records 0 a ha
    exact ⟨n, r, h1, by simpa using h2, h3⟩

/-- Witness for `validate_single_record_order`: a record whose earlier
checks pass and whose date is a weekend Saturday, reported with the
weekend message (conjunct 5). -/
theorem validate_single_record_order_witness :
    validate_single_record 0 ⟨some 1, some "2024-01-06", some true⟩
        [c4Student] [] ⟨2024, 1, 15⟩
      = some (weekend_msg 0 "2024-01-06") :=
  (validate_single_record_order 0 ⟨some 1, some "2024-01-06", some true⟩
      [c4Student] [] ⟨2024, 1, 15⟩).2.2.2.2.1
    (by decide) (by decide) (by decide) (by decide) (by decide)

/-- **C4 counterexample**: the claim says a record with null `present`
produces *no* error message, but a null-`present` record that fails a
validation check (here: missing `student_id` and `date`) does produce
the check's error. -/
theorem null_present_error_counterexample :
    (RawRecord.mk none none none).present = none
    ∧ (validate_and_prepare_records [RawRecord.mk none none none] 1 1 []
        ⟨2024, 1, 15⟩ []).2
      = ["Record 0: Missing student_id or date"] := by
  exact ⟨rfl, by decide⟩

/-- **C4 amended** (`AttendanceHandler._create_attendance_object`, lines
106–127, and `validate_and_prepare_records`, lines 17–62): a record with
null `present` never appears in the valid-objects list; and when it
passes all validation checks it is silently skipped — the loop adds
neither an object nor an error for it.  (A null-`present` record that
fails a validation check still produces that check's error message, per
the counterexample.) -/
theorem null_present_skipped (valid_students : List StudentM)
    (holidays : List Date) (today : Date) (year_id : Nat) :
    (∀ (idx : Nat) (record : RawRecord) (rest : List RawRecord),
      record.present = none →
      validate_single_record idx record valid_students holidays today = none →
      validateLoop valid_students holidays today year_id idx (record :: rest)
        = validateLoop valid_students holidays today year_id (idx + 1) rest)
    ∧ (∀ (records : List RawRecord) (school_id : Nat)
          (students : List StudentM) (a : AttendanceRow),
        a ∈ (validate_and_prepare_records records year_id school_id holidays
              today students).1 →
        ∃ n r, records.get? n = some r ∧ r.present ≠ none) := by
  constructor
  · intro idx record rest hpres hval
    simp only [validateLoop, hval, create_attendance_object, hpres]
  · intro records school_id students a ha
    unfold validate_and_prepare_records at ha
    obtain ⟨n, r, h1, _, h3⟩ :=
      validateLoop_mem_objects
        (build_valid_students records school_id students) holidays today
        year_id records 0 a ha
    refine ⟨n, r, h1, ?_⟩
    intro hpres
    rw [create_attendance_object, hpres] at h3
    exact Option.noConfusion h3

/-- Witness for `null_present_skipped`: a null-`present` record passing
all checks contributes nothing to the loop's output. -/
theorem null_present_skipped_witness :
    validateLoop [c4Student] [] ⟨2024, 1, 15⟩ 1 0
        [⟨some 1, some "2024-01-02", none⟩]
      = validateLoop [c4Student] [] ⟨2024, 1, 15⟩ 1 1 [] :=
  (null_present_skipped [c4Student] [] ⟨2024, 1, 15⟩ 1).1 0
    ⟨some 1, some "2024-01-02", none⟩ [] rfl (by decide)

/-- **C5** (`TeacherAvailabilityService.get_teacher_availability_for_period`,
`timetable/timetable_services.py` lines 21–95, and the `reason_type` of
`get_available_teachers_for_period`, lines 146–148): the conflict checks
run in the fixed order absence → scheduled class → existing proxy with
the first match returning immediately; in particular a teacher who is
both absent and scheduled is reported with reason `"absent"`, never
`"class"`. -/
theorem availability_priority (teacher_id date : Nat) (day : String)
    (period : Nat) (absences : List AbsenceRowM)
    (entries : List TimetableEntryM) (proxies : List ProxyRowM) :
    (absences.any (fun a =>
        a.teacher_id == teacher_id && a.date == date && a.status == "absent")
        = true →
      (get_teacher_availability_for_period teacher_id date day period
          absences entries proxies).available = false
      ∧ (get_teacher_availability_for_period teacher_id date day period
          absences entries proxies).is_absent = true
      ∧ (get_teacher_availability_for_period teacher_id date day period
          absences entries proxies).has_class = false
      ∧ reason_type (get_teacher_availability_for_period teacher_id date day
          period absences entries proxies) = "absent"
      ∧ reason_type (get_teacher_availability_for_period teacher_id date day
          period absences entries proxies) ≠ "class")
    ∧ (absences.any (fun a =>
        a.teacher_id == teacher_id && a.date == date && a.status == "absent")
        = false →
       entries.any (fun e =>
        e.teacher_id == some teacher_id && e.day == day && e.period == period)
        = true →
      (get_teacher_availability_for_period teacher_id date day period
          absences entries proxies).available = false
      ∧ reason_type (get_teacher_availability_for_period teacher_id date day
          period absences entries proxies) = "class")
    ∧ (absences.any (fun a =>
        a.teacher_id == teacher_id && a.date == date && a.status == "absent")
        = false →
       entries.any (fun e =>
        e.teacher_id == some teacher_id && e.day == day && e.period == period)
        = false →
       proxies.any (fun p =>
        p.proxy_teacher_id == teacher_id && p.date == date && p.day == day
          && p.period == period
          && (decide (p.status = ProxyStatus.assigned)
              || decide (p.status = ProxyStatus.completed))) = true →
      (get_teacher_availability_for_period teacher_id date day period
          absences entries proxies).available = false
      ∧ reason_type (get_teacher_availability_for_period teacher_id date day
          period absences entries proxies) = "proxy")
    ∧ (absences.any (fun a =>
        a.teacher_id == teacher_id && a.date == date && a.status == "absent")
        = false →
       entries.any (fun e =>
        e.teacher_id == some teacher_id && e.day == day && e.period == period)
        = false →
       proxies.any (fun p =>
        p.proxy_teacher_id == teacher_id && p.date == date && p.day == day
          && p.period == period
          && (decide (p.status = ProxyStatus.assigned)
              || decide (p.status = ProxyStatus.completed))) = false →
      (get_teacher_availability_for_period teacher_id date day period
          absences entries proxies).available = true) := by
  refine ⟨?_, ?_, ?_, ?_⟩
  · intro h1
    simp [get_teacher_availability_for_period, h1, reason_type]
  · intro h1 h2
    simp [get_teacher_availability_for_period, h1, h2, reason_type]
  · intro h1 h2 h3
    simp [get_teacher_availability_for_period, h1, h2, h3, reason_type]
  · intro h1 h2 h3
    simp [get_teacher_availability_for_period, h1, h2, h3]

/-- Witness for `availability_priority`: teacher 5 is absent on day 100
*and* has a Monday period-2 class; the report says absent, not class. -/
theorem availability_priority_witness :
    (get_teacher_availability_for_period 5 100 "monday" 2
        [⟨1, 5, 100, "absent"⟩] [⟨1, "monday", 2, "Math", some 5⟩] []).available
      = false
    ∧ (get_teacher_availability_for_period 5 100 "monday" 2
        [⟨1, 5, 100, "absent"⟩] [⟨1, "monday", 2, "Math", some 5⟩] []).is_absent
      = true
    ∧ (get_teacher_availability_for_period 5 100 "monday" 2
        [⟨1, 5, 100, "absent"⟩] [⟨1, "monday", 2, "Math", some 5⟩] []).has_class
      = false
    ∧ reason_type (get_teacher_availability_for_period 5 100 "monday" 2
        [⟨1, 5, 100, "absent"⟩] [⟨1, "monday", 2, "Math", some 5⟩] [])
      = "absent"
    ∧ reason_type (get_teacher_availability_for_period 5 100 "monday" 2
        [⟨1, 5, 100, "absent"⟩] [⟨1, "monday", 2, "Math", some 5⟩] [])
      ≠ "class" :=
  (availability_priority 5 100 "monday" 2 [⟨1, 5, 100, "absent"⟩]
      [⟨1, "monday", 2, "Math", some 5⟩] []).1 (by decide)

/-- **C6 counterexample**: the claim says a proxy in status `completed`
never changes status, but `cancel_proxy` on a completed proxy sets it to
`cancelled` (the source sets the status unconditionally). -/
theorem proxy_terminal_counterexample :
    (cancel_proxy 1
        [⟨1, 1, 1, "monday", 1, 1, 2, "Math", 100, ProxyStatus.completed,
          none⟩]).1 = true
    ∧ (cancel_proxy 1
        [⟨1, 1, 1, "monday", 1, 1, 2, "Math", 100, ProxyStatus.completed,
          none⟩]).2.map ProxyRowM.status = [ProxyStatus.cancelled]
    ∧ ProxyStatus.completed ≠ ProxyStatus.cancelled := by
  refine ⟨by decide, by decide, by decide⟩

/-- **C6 amended** (`ProxyAssignmentService.assign_proxy`/`cancel_proxy`,
`timetable/timetable_services.py` lines 283–323 and 387–396;
`CompleteProxyView.post`, `timetable/views.py` lines 392–414): the
operations set the status *unconditionally* — `cancel` always leaves the
targeted proxy `cancelled` and `complete` always leaves it `completed`,
whatever its previous status (so transitions out of `completed` and
`cancelled` do occur, contrary to the claim); `assign` always leaves the
slot's proxy `assigned`; and a newly created proxy starts in status
`assigned` (the model default, and the status `assign_proxy` writes). -/
theorem proxy_status_transitions :
    (∀ (proxy_id : Nat) (db : List ProxyRowM) (p : ProxyRowM),
        p ∈ (cancel_proxy proxy_id db).2 → p.id = proxy_id →
        p.status = ProxyStatus.cancelled)
    ∧ (∀ (proxy_id school_id : Nat) (classrooms : List ClassRoomM)
          (db db2 : List ProxyRowM) (p : ProxyRowM),
        complete_proxy proxy_id school_id classrooms db = some db2 →
        p ∈ db2 → p.id = proxy_id → p.status = ProxyStatus.completed)
    ∧ (∀ (absence : AbsenceRowM) (period classroom_id proxy_teacher_id : Nat)
          (assigned_by : Option Nat) (subject : String)
          (db : List ProxyRowM),
        (assign_proxy absence period classroom_id proxy_teacher_id
          assigned_by subject db).1.status = ProxyStatus.assigned)
    ∧ proxy_status_default = ProxyStatus.assigned := by
  refine ⟨?_, ?_, ?_, rfl⟩
  · intro pid db p hp hid
    unfold cancel_proxy at hp
    cases hfind : db.find? (fun q => q.id == pid) with
    | none =>
        rw [hfind] at hp
        simp only at hp
        have hfalse := List.find?_eq_none.mp hfind p hp
        simp [hid] at hfalse
    | some q =>
        rw [hfind] at hp
        simp only [List.mem_map] at hp
        obtain ⟨r, _, heq⟩ := hp
        by_cases hrid : (r.id == pid) = true
        · rw [if_pos hrid] at heq
          rw [← heq]
        · rw [if_neg hrid] at heq
          subst heq
          simp [hid] at hrid
  · intro pid school classrooms db db2 p hcomp hp hid
    unfold complete_proxy at hcomp
    cases hfind : db.find? (fun q =>
        q.id == pid && classrooms.any (fun c =>
          c.id == q.classroom_id && c.school_id == school)) with
    | none => rw [hfind] at hcomp; exact Option.noConfusion hcomp
    | some q =>
        rw [hfind] at hcomp
        simp only [Option.some.injEq] at hcomp
        subst hcomp
        simp only [List.mem_map] at hp
        obtain ⟨r, _, heq⟩ := hp
        by_cases hrid : (r.id == pid) = true
        · rw [if_pos hrid] at heq
          rw [← heq]
        · rw [if_neg hrid] at heq
          subst heq
          simp [hid] at hrid
  · intro absence period classroom_id proxy_teacher_id assigned_by subject db
    unfold assign_proxy
    cases hfind : db.find? (fun p =>
        p.absence_id == absence.id && p.classroom_id == classroom_id
          && p.day == dayNameOf absence.date && p.period == period) <;>
      simp [hfind]

/-- Witness for `proxy_status_transitions`: cancelling a *completed*
proxy (id 2) leaves it cancelled. -/
theorem proxy_status_transitions_witness :
    (ProxyRowM.mk 2 1 1 "monday" 1 1 3 "Sci" 101 ProxyStatus.cancelled
      none).status = ProxyStatus.cancelled :=
  proxy_status_transitions.1 2
    [⟨2, 1, 1, "monday", 1, 1, 3, "Sci", 101, ProxyStatus.completed, none⟩]
    ⟨2, 1, 1, "monday", 1, 1, 3, "Sci", 101, ProxyStatus.cancelled, none⟩
    (by decide) rfl

/-- **C7 counterexample**: on the 7-calendar-day range `[0, 6]` with one
student and no attendance rows, the single window reports
`pending = 6 = studentCount * (week_end - window_start)`, not
`max(0, studentCount * windowDays - total) = 7` as claimed. -/
theorem weekly_pending_counterexample :
    compute_weekly_statistics [] 1 0 6 [] = [⟨1, 0, 0, 6⟩]
    ∧ weeklyWindows 0 6 = [(0, 6)]
    ∧ (6 : Int) ≠ max 0 (1 * 7 - 0) := by
  have h76 : weeklyWindows 7 6 = [] := by
    rw [weeklyWindows]
    simp
  refine ⟨by decide, ?_, by decide⟩
  rw [weeklyWindows]
  simp [h76]

/-- The weekly loop computes exactly the per-window statistics of the
7-day window decomposition (in particular the loop's fuel never runs
out). -/
theorem weeklyLoop_eq_windows (ids : List Nat) (sc : Nat) (e : Nat)
    (att : List AttendanceRow) :
    ∀ (fuel current wn : Nat), e + 1 - current ≤ fuel →
      weeklyLoop ids sc e att fuel current wn
        = windowStatsFrom ids sc att (weeklyWindows current e) wn := by
  intro fuel
  induction fuel with
  | zero =>
      intro current wn h
      rw [weeklyWindows, dif_neg (by omega)]
      rfl
  | succ f ih =>
      intro current wn h
      by_cases hce : current ≤ e
      · rw [weeklyWindows, dif_pos hce]
        simp only [weeklyLoop, if_pos hce, windowStatsFrom]
        congr 1
        exact ih (min (current + 6) e + 1) (wn + 1) (by omega)
      · rw [weeklyWindows, dif_neg hce]
        simp [weeklyLoop, hce, windowStatsFrom]

/-- **C7 amended** (`StatisticsHandler.compute_weekly_statistics`,
`records/statistics_handler.py` lines 47–79): the range is split into
consecutive 7-day windows with the last truncated at the range end
(`weeklyWindows`), and each window `(first, last)` reports
`pending = max(0, studentCount * (last - first) - total)` — the
multiplier is the day *difference* `(week_end - current).days`, i.e.
`windowDays - 1`, not `windowDays` as claimed (see `windowStats`). -/
theorem weekly_eq_windows (ids : List Nat) (sc : Nat) (s e : Nat)
    (att : List AttendanceRow) :
    compute_weekly_statistics ids sc s e att
      = windowStatsFrom ids sc att (weeklyWindows s e) 1 :=
  weeklyLoop_eq_windows ids sc e att (e + 1 - s) s 1 (Nat.le_refl _)

/-! ## Helper lemmas for the attendance upsert -/

theorem sameKey_iff (a b : AttendanceRow) :
    sameKey a b = true ↔
      a.student_id = b.student_id ∧ a.date = b.date
        ∧ a.year_id = b.year_id := by
  simp [sameKey, and_assoc]

theorem sameKey_of_sameKey (a b x : AttendanceRow)
    (h1 : sameKey a x = true) (h2 : sameKey b x = true) :
    sameKey a b = true := by
  rw [sameKey_iff] at h1 h2 ⊢
  obtain ⟨e1, e2, e3⟩ := h1
  obtain ⟨f1, f2, f3⟩ := h2
  exact ⟨e1.trans f1.symm, e2.trans f2.symm, e3.trans f3.symm⟩

theorem sameKey_refl (a : AttendanceRow) : sameKey a a = true := by
  rw [sameKey_iff]; exact ⟨rfl, rfl, rfl⟩

theorem sameKey_set_present (r o : AttendanceRow) (p : Bool) :
    sameKey { r with present := p } o = sameKey r o := by
  simp [sameKey]

/-- In a database whose rows have pairwise distinct natural keys, at most
one row matches any given key. -/
theorem countP_key_le_one (db : List AttendanceRow) (x : AttendanceRow)
    (hU : db.Pairwise (fun a b => sameKey a b = false)) :
    db.countP (fun r => sameKey r x) ≤ 1 := by
  induction hU with
  | nil => simp
  | cons ha _ ih =>
      rename_i a t _
      rw [List.countP_cons]
      by_cases h : sameKey a x = true
      · have hzero : t.countP (fun r => sameKey r x) = 0 := by
          rw [List.countP_eq_zero]
          intro r hr hrx
          have htrans := sameKey_of_sameKey a r x h hrx
          rw [ha r hr] at htrans
          exact Bool.noConfusion htrans
        simp [h, hzero]
      · simp only [h]
        simpa using ih

/-- Filtering the key out of an update-mapped database yields one copy of
the updated row per previously matching row. -/
theorem filter_map_upd (o : AttendanceRow) :
    ∀ db : List AttendanceRow,
      (db.map (fun r => if sameKey r o then { r with present := o.present }
          else r)).filter (fun r => sameKey r o)
        = List.replicate (db.countP (fun r => sameKey r o)) o := by
  intro db
  induction db with
  | nil => simp
  | cons a t ih =>
      rw [List.map_cons, List.countP_cons]
      by_cases h : sameKey a o = true
      · rw [if_pos h]
        have hao : ({ a with present := o.present } : AttendanceRow) = o := by
          rw [sameKey_iff] at h
          obtain ⟨e1, e2, e3⟩ := h
          cases a; cases o
          simp_all
        rw [hao]
        simp [List.filter_cons, sameKey_refl, h, ih, List.replicate_succ]
      · rw [if_neg h]
        have h' : sameKey a o = false := by
          cases hb : sameKey a o
          · rfl
          · exact absurd hb h
        simp [List.filter_cons, h', ih]

/-- After an upsert there is exactly one row with the upserted key, and
it carries the upserted `present` value. -/
theorem filter_upsert (db : List AttendanceRow) (o : AttendanceRow)
    (h : db.countP (fun r => sameKey r o) ≤ 1) :
    (upsert_one db o).filter (fun r => sameKey r o) = [o] := by
  unfold upsert_one
  by_cases hany : db.any (fun r => sameKey r o) = true
  · rw [if_pos hany, filter_map_upd]
    have hpos : 0 < db.countP (fun r => sameKey r o) := by
      rw [List.countP_pos]
      rw [List.any_eq_true] at hany
      exact hany
    have hone : db.countP (fun r => sameKey r o) = 1 := by omega
    rw [hone]
    rfl
  · rw [if_neg hany, List.filter_append]
    have hzero : db.filter (fun r => sameKey r o) = [] := by
      rw [List.filter_eq_nil]
      intro r hr hrx
      exact hany (List.any_eq_true.mpr ⟨r, hr, hrx⟩)
    rw [hzero]
    simp [List.filter_cons, sameKey_refl]

/-- The number of rows matching the upserted key after an upsert. -/
theorem countP_upsert (db : List AttendanceRow) (o : AttendanceRow) :
    (upsert_one db o).countP (fun r => sameKey r o)
      = if db.any (fun r => sameKey r o) = true
        then db.countP (fun r => sameKey r o)
        else db.countP (fun r => sameKey r o) + 1 := by
  unfold upsert_one
  by_cases hany : db.any (fun r => sameKey r o) = true
  · rw [if_pos hany, if_pos hany, List.countP_map]
    apply List.countP_congr
    intro r _
    by_cases h : sameKey r o = true <;>
      simp [Function.comp, h, sameKey_set_present]
  · rw [if_neg hany, if_neg hany, List.countP_append]
    simp [List.countP_cons, sameKey_refl]

/-- **C8** (`AttendanceHandler.bulk_create_records`, lines 129–186, and
the `unique_together ('student', 'date', 'year')` constraint of
`records/models.py::Attendance`, lines 233–247): on a database with
pairwise-distinct natural keys, submitting (S, D, Y, present=true) then
(S, D, Y, present=false) leaves exactly one stored row for the key
(S, D, Y) and its `present` is `false`; re-submitting the identical
record leaves the database — and hence every statistic computed from
it — unchanged. -/
theorem attendance_upsert_spec (S : Nat) (D : Date) (Y : Nat)
    (db db1 db2 : List AttendanceRow)
    (hU : db.Pairwise (fun a b => sameKey a b = false))
    (h1 : db1 = bulk_create_records [⟨S, D, true, Y⟩] db)
    (h2 : db2 = bulk_create_records [⟨S, D, false, Y⟩] db1) :
    db2.filter (fun r => sameKey r ⟨S, D, false, Y⟩) = [⟨S, D, false, Y⟩]
    ∧ bulk_create_records [⟨S, D, false, Y⟩] db2 = db2
    ∧ ∀ (classroom : ClassRoomM) (year_id : Nat) (holidays : List Date)
        (today : Date) (students : List StudentM),
        get_classroom_stats classroom year_id holidays today students
          (bulk_create_records [⟨S, D, false, Y⟩] db2)
        = get_classroom_stats classroom year_id holidays today students db2 := by
  have hb : ∀ (o : AttendanceRow) (l : List AttendanceRow),
      bulk_create_records [o] l = upsert_one l o := fun o l => rfl
  have hKK : ∀ r, sameKey r (⟨S, D, true, Y⟩ : AttendanceRow)
      = sameKey r (⟨S, D, false, Y⟩ : AttendanceRow) := by
    intro r
    simp [sameKey]
  have hdb1 : db1 = upsert_one db ⟨S, D, true, Y⟩ := by rw [h1, hb]
  have hdb2 : db2 = upsert_one db1 ⟨S, D, false, Y⟩ := by rw [h2, hb]
  have hc_db : db.countP (fun r => sameKey r ⟨S, D, true, Y⟩) ≤ 1 :=
    countP_key_le_one db _ hU
  have hcount1 : db1.countP (fun r => sameKey r ⟨S, D, true, Y⟩) = 1 := by
    rw [hdb1, countP_upsert]
    by_cases hany : db.any (fun r => sameKey r ⟨S, D, true, Y⟩) = true
    · rw [if_pos hany]
      have hpos : 0 < db.countP (fun r => sameKey r ⟨S, D, true, Y⟩) := by
        rw [List.countP_pos]
        rw [List.any_eq_true] at hany
        exact hany
      omega
    · rw [if_neg hany]
      have hzero : db.countP (fun r => sameKey r ⟨S, D, true, Y⟩) = 0 := by
        rw [List.countP_eq_zero]
        intro r hr hrx
        exact hany (List.any_eq_true.mpr ⟨r, hr, hrx⟩)
      omega
  have hcount0 : db1.countP (fun r => sameKey r ⟨S, D, false, Y⟩) = 1 := by
    rw [← hcount1]
    apply List.countP_congr
    intro r _
    rw [hKK r]
  have ha : db2.filter (fun r => sameKey r ⟨S, D, false, Y⟩)
      = [⟨S, D, false, Y⟩] := by
    rw [hdb2]
    exact filter_upsert db1 _ hcount0.le
  have hany2 : db1.any (fun r => sameKey r ⟨S, D, false, Y⟩) = true := by
    rw [List.any_eq_true]
    rw [← List.countP_pos]
    omega
  have hcount2 : db2.countP (fun r => sameKey r ⟨S, D, false, Y⟩) = 1 := by
    rw [hdb2, countP_upsert, if_pos hany2, hcount0]
  have hany3 : db2.any (fun r => sameKey r ⟨S, D, false, Y⟩) = true := by
    rw [List.any_eq_true]
    rw [← List.countP_pos]
    omega
  have hb2 : upsert_one db2 ⟨S, D, false, Y⟩ = db2 := by
    unfold upsert_one
    rw [if_pos hany3]
    have hid : ∀ r ∈ db2,
        (if sameKey r ⟨S, D, false, Y⟩ then
          { r with present := (⟨S, D, false, Y⟩ : AttendanceRow).present }
        else r) = r := by
      intro r hr
      by_cases h : sameKey r ⟨S, D, false, Y⟩ = true
      · rw [if_pos h]
        have hmem : r ∈ db2.filter (fun r => sameKey r ⟨S, D, false, Y⟩) :=
          List.mem_filter.mpr ⟨hr, h⟩
        rw [ha, List.mem_singleton] at hmem
        subst hmem
        rfl
      · rw [if_neg h]
    calc db2.map (fun r =>
          if sameKey r ⟨S, D, false, Y⟩ then
            { r with present := (⟨S, D, false, Y⟩ : AttendanceRow).present }
          else r)
        = db2.map id := List.map_congr_left hid
      _ = db2 := List.map_id db2
  refine ⟨ha, ?_, ?_⟩
  · rw [hb, hb2]
  · intro classroom year_id holidays today students
    rw [hb, hb2]

/-- Witness for `attendance_upsert_spec`: the empty database, student 1,
date 2024-01-02, year 1. -/
theorem attendance_upsert_spec_witness :
    ([⟨1, ⟨2024, 1, 2⟩, false, 1⟩] : List AttendanceRow).filter
        (fun r => sameKey r ⟨1, ⟨2024, 1, 2⟩, false, 1⟩)
      = [⟨1, ⟨2024, 1, 2⟩, false, 1⟩]
    ∧ bulk_create_records [⟨1, ⟨2024, 1, 2⟩, false, 1⟩]
        [⟨1, ⟨2024, 1, 2⟩, false, 1⟩]
      = [⟨1, ⟨2024, 1, 2⟩, false, 1⟩] := by
  have h := attendance_upsert_spec 1 ⟨2024, 1, 2⟩ 1 []
    [⟨1, ⟨2024, 1, 2⟩, true, 1⟩] [⟨1, ⟨2024, 1, 2⟩, false, 1⟩]
    (by simp) (by decide) (by decide)
  exact ⟨h.1, h.2.1⟩

/-- **C9** (`records/utils.py::parse_weekend_days`, lines 94–113, and
`is_weekend`, lines 116–132): when a classroom's `weekend_days` value is
empty/missing (falsy: `None`, `""`, `[]`) or a string whose JSON decode
fails, every engine path treats the weekend set as `[0, 6]` (Sunday and
Saturday): `parse_weekend_days` returns `[0, 6]`, the weekend validation
test becomes membership of the day code in `[0, 6]`, and the school-day
counting of the classroom-statistics engine behaves as if the classroom
had `weekend_days = [0, 6]`. -/
theorem weekend_default_spec (wd : WeekendData)
    (h : weekendTruthy wd = false
      ∨ ∃ s, wd = WeekendData.pystr s JsonParse.fail) :
    parse_weekend_days wd = [0, 6]
    ∧ (∀ (d : Date) (c : ClassRoomM), c.weekend_days = wd →
        is_weekend d (some c)
          = decide (isoWeekdayCode (toRdn d) ∈ [0, 6]))
    ∧ (∀ (c : ClassRoomM) (year_id : Nat) (holidays : List Date)
          (today : Date) (students : List StudentM)
          (attendance : List AttendanceRow), c.weekend_days = wd →
        get_classroom_stats c year_id holidays today students attendance
          = get_classroom_stats { c with weekend_days := WeekendData.pylist [0, 6] }
              year_id holidays today students attendance) := by
  have hparse : parse_weekend_days wd = [0, 6] := by
    rcases h with hfalsy | ⟨s, rfl⟩
    · simp [parse_weekend_days, hfalsy]
    · by_cases hs : s = "" <;>
        simp [parse_weekend_days, weekendTruthy, hs]
  have hdefault : parse_weekend_days (WeekendData.pylist [0, 6]) = [0, 6] := by
    simp [parse_weekend_days, weekendTruthy]
  refine ⟨hparse, ?_, ?_⟩
  · intro d c hc
    simp [is_weekend, hc, hparse]
  · intro c year_id holidays today students attendance hc
    have hsame : students_of_classroom students
        { c with weekend_days := WeekendData.pylist [0, 6] }
        = students_of_classroom students c := by
      simp [students_of_classroom]
    have hrange : effective_range
        { c with weekend_days := WeekendData.pylist [0, 6] } today
        = effective_range c today := by
      simp [effective_range]
    simp [get_classroom_stats, hsame, hrange, hc, hparse, hdefault]

/-- Witness for `weekend_default_spec`: a `weekend_days` string that
fails JSON decoding defaults to `[0, 6]`, and 2024-01-06 (a Saturday,
code 6) is then a weekend for such a classroom. -/
theorem weekend_default_spec_witness :
    parse_weekend_days (WeekendData.pystr "not-json" JsonParse.fail) = [0, 6]
    ∧ is_weekend ⟨2024, 1, 6⟩ (some c9Classroom)
        = decide (isoWeekdayCode (toRdn ⟨2024, 1, 6⟩) ∈ [0, 6])
    ∧ is_weekend ⟨2024, 1, 6⟩ (some c9Classroom) = true :=
  have h := weekend_default_spec
    (WeekendData.pystr "not-json" JsonParse.fail)
    (Or.inr ⟨"not-json", rfl⟩)
  ⟨h.1, h.2.1 ⟨2024, 1, 6⟩ c9Classroom rfl, by decide⟩

/-- **C10** (`AttendanceValidationService.validate_attendance_records`,
`records/services.py` lines 196–279, vs
`AttendanceHandler._validate_single_record`, lines 89–93): the duplicate
validation entry point performs no future-date check — a concrete record
dated 2024-05-21 with "today" = 2024-05-20, which passes every other
check, is returned in the valid-objects list with no error, while the
handler's validator rejects the very same record as a future date. -/
theorem service_no_future_check :
    validate_attendance_records [⟨some 1, some "2024-05-21", some true⟩]
        1 1 [] [c10Student]
      = ([⟨1, ⟨2024, 5, 21⟩, true, 1⟩], [])
    ∧ validate_single_record 0 ⟨some 1, some "2024-05-21", some true⟩
        [c10Student] [] ⟨2024, 5, 20⟩
      = some (future_msg 0 "2024-05-21" ⟨2024, 5, 20⟩)
    ∧ toRdn (⟨2024, 5, 20⟩ : Date) < toRdn ⟨2024, 5, 21⟩ := by
  refine ⟨by decide, by decide, by decide⟩

end SchoolCore
